import Mathlib

/-!
Verification development for the `bigboost` repository: a one-route Flask web
handler (`src/app.py`, function `hello_model`) and a batch deployment check
script (`src/fake_deploy.py`).  Both load an xgboost regression model from the
file `smallmodel.txt`, draw random feature vectors, and produce predictions.

The embedding makes the nondeterminism explicit: a random-number generator is
a pair of streams (uniform and normal draws), the filesystem is a partial map
from paths to model files, and the external xgboost library (not part of this
repository) is modelled from the spec as an opaque prediction function guarded
by a feature-count shape check.  Side effects are recorded as an explicit
effect trace so that frame properties can be stated.
-/

namespace BigBoost

/-- A random-number generator, modelled as its streams of draws:
`uniform i` is the i-th value produced by `rng.uniform(...)` draws
and `normal i` the i-th value produced by `rng.normal(...)` draws
(`np.random.default_rng()` in both scripts). -/
structure RNG where
  uniform : ℕ → ℝ
  normal : ℕ → ℝ

/-- Well-formedness of a generator: numpy's `rng.uniform` draws lie in [0,1). -/
def RNG.Wf (rng : RNG) : Prop := ∀ i, 0 ≤ rng.uniform i ∧ rng.uniform i < 1

/-- Modelled from the spec: an xgboost `XGBRegressor` once loaded.  The xgboost
library is external to this repository, so the model handle is opaque: the
number of features it expects and its raw per-row regression function. -/
structure Model where
  nFeatures : ℕ
  raw : List ℝ → ℝ

/-- Error raised by the external prediction call. -/
inductive PredictError
  | shapeMismatch
deriving DecidableEq

/-- Modelled from the spec: `XGBRegressor.predict` over a batch of rows.
Per the spec, passing a feature vector of any length other than the model's
expected feature count fails with a shape-mismatch error; otherwise each row
is mapped through the regressor. -/
def Model.predict (m : Model) (X : List (List ℝ)) : Except PredictError (List ℝ) :=
  if X.all (fun row => row.length == m.nFeatures) then
    Except.ok (X.map m.raw)
  else
    Except.error PredictError.shapeMismatch

/-- Error raised when loading the model file. -/
inductive LoadError
  | fileNotFound
deriving DecidableEq

/-- Modelled from the spec: `XGBRegressor.load_model` is provided by the
external xgboost library; a missing or unreadable file raises an unhandled
error, a readable file yields the model it serializes. -/
def loadModel : Option Model → Except LoadError Model
  | none => Except.error LoadError.fileNotFound
  | some m => Except.ok m

/-- The filesystem, as far as the two scripts observe it: a partial map from
paths to the model serialized at that path (`none` = missing or unreadable). -/
def FileSystem : Type := String → Option Model

/-- The fixed relative path both scripts load the model from. -/
def modelPath : String := "smallmodel.txt"

/-- An observable side effect of a run. -/
inductive Effect
  | fileRead (path : String)
  | fileWrite (path : String)
  | predictCall (rows : ℕ)
  | log (msg : String)
deriving DecidableEq

/-- Whether an effect writes to the filesystem. -/
def Effect.isWrite : Effect → Bool
  | Effect.fileWrite _ => true
  | _ => false

/-- Whether an effect logs a message (logging, metrics, persistence). -/
def Effect.isLog : Effect → Bool
  | Effect.log _ => true
  | _ => false

/-- Whether an effect is a prediction pass. -/
def Effect.isPredict : Effect → Bool
  | Effect.predictCall _ => true
  | _ => false

/-- `x = rng.uniform(size=20)` in `app.py`: the 20-component feature vector,
the first 20 draws of the uniform stream. -/
noncomputable def featureVector (rng : RNG) : List ℝ :=
  (List.range 20).map rng.uniform

/-- The synthetic reference value computed by `hello_model` in `app.py`:
`true = 2*np.sin(pi*x[0]*x[1]) + (2*x[2] - 1)**2 + 2*x[3] + x[4]` followed by
`true = 5*true + 0.1*rng.normal(size=1)`. -/
noncomputable def handlerTrue (rng : RNG) : ℝ :=
  let x := featureVector rng
  let t := 2 * Real.sin (Real.pi * x.getD 0 0 * x.getD 1 0)
    + (2 * x.getD 2 0 - 1) ^ 2 + 2 * x.getD 3 0 + x.getD 4 0
  5 * t + 0.1 * rng.normal 0

/-- The model's scalar prediction on the handler's feature vector
(`pred = model.predict(x[np.newaxis, ...])`, a one-row batch). -/
noncomputable def handlerPred (m : Model) (rng : RNG) : ℝ :=
  m.raw (featureVector rng)

/-- Errors a handler run can raise (all unhandled in the source; Flask turns
them into a server error). -/
inductive AppError
  | loadFailed
  | predictFailed
deriving DecidableEq

/-- An HTTP response: status code and text body. -/
structure Response where
  status : ℕ
  body : String
deriving DecidableEq

/-- The f-string literal of `app.py` line 21, with the two rendered numeric
arrays spliced in. -/
def bodyTemplate (p e : String) : String :=
  "Prediction: " ++ p ++ "\n Error: " ++ e ++ "\n n.b. model suboptimal to save time"

/-- The web handler `hello_model` of `app.py`, as a function of the filesystem,
numpy's array renderer (external: the default string representation of a numeric
array), and the request's random draws.  Returns the response (Flask returns a
string body with status 200) or the unhandled error, together with the effect
trace of the run. -/
noncomputable def hello_model (fs : FileSystem) (render : List ℝ → String) (rng : RNG) :
    Except AppError Response × List Effect :=
  match loadModel (fs modelPath) with
  | Except.error _ => (Except.error AppError.loadFailed, [Effect.fileRead modelPath])
  | Except.ok model =>
    let x := featureVector rng
    match model.predict [x] with
    | Except.error _ =>
        (Except.error AppError.predictFailed,
         [Effect.fileRead modelPath, Effect.predictCall 1])
    | Except.ok preds =>
      let tru := handlerTrue rng
      let errs := preds.map (fun q => (tru - q) ^ 2)
      (Except.ok ⟨200, bodyTemplate (render preds) (render errs)⟩,
       [Effect.fileRead modelPath, Effect.predictCall 1])

/-- `X_deploy = rng.uniform(size=(10, 20))` in `fake_deploy.py`: ten rows of
twenty uniform draws, row-major. -/
noncomputable def deployMatrix (rng : RNG) : List (List ℝ) :=
  (List.range 10).map (fun i => (List.range 20).map (fun j => rng.uniform (20 * i + j)))

/-- Outcome of running the batch script: its exit code and the numeric arrays
printed to standard output (rendering to text is left to the runtime). -/
structure ScriptResult where
  exitCode : ℕ
  printed : List (List ℝ)

/-- The module body of `fake_deploy.py`: load the model, draw a 10×20 uniform
matrix, predict once, print the resulting array.  Any error terminates the
script with a non-zero exit code and nothing printed. -/
noncomputable def fake_deploy (fs : FileSystem) (rng : RNG) :
    ScriptResult × List Effect :=
  match loadModel (fs modelPath) with
  | Except.error _ => (⟨1, []⟩, [Effect.fileRead modelPath])
  | Except.ok model =>
    match model.predict (deployMatrix rng) with
    | Except.error _ =>
        (⟨1, []⟩, [Effect.fileRead modelPath, Effect.predictCall 10])
    | Except.ok preds =>
        (⟨0, [preds]⟩, [Effect.fileRead modelPath, Effect.predictCall 10])

/-- A sequence of independent requests served by the web app: each request is
handled by `hello_model` with its own random draws; the Flask app object holds
no mutable state between requests. -/
noncomputable def serve (fs : FileSystem) (render : List ℝ → String) (rngs : List RNG) :
    List (Except AppError Response × List Effect) :=
  rngs.map (hello_model fs render)

/-! ### Concrete fixtures used by witness theorems -/

/-- A concrete 20-feature model (constant regressor). -/
noncomputable def mA : Model := ⟨20, fun _ => 0⟩

/-- A concrete 20-feature model that reads the sixth feature component. -/
noncomputable def mIdx5 : Model := ⟨20, fun v => v.getD 5 0⟩

/-- A filesystem holding `mA` at every path. -/
noncomputable def fsA : FileSystem := fun _ => some mA

/-- A filesystem with no readable files. -/
def fsNone : FileSystem := fun _ => none

/-- A concrete renderer. -/
def renderA : List ℝ → String := fun _ => "[0.]"

/-- A concrete generator drawing only zeros. -/
noncomputable def rngA : RNG := ⟨fun _ => 0, fun _ => 0⟩

/-- A concrete generator agreeing with `rngA` on the first five uniform draws
and on the noise draw, differing beyond. -/
noncomputable def rngB : RNG := ⟨fun i => if i < 5 then 0 else 1, fun _ => 0⟩

/-- A concrete generator whose uniform draws are all one half, with zero noise. -/
noncomputable def rngHalf : RNG := ⟨fun _ => 1/2, fun _ => 0⟩

/-! ### Helper lemmas shared by the claim theorems -/

theorem featureVector_length (rng : RNG) : (featureVector rng).length = 20 := by
  simp [featureVector]

theorem featureVector_getD (rng : RNG) (i : ℕ) (h : i < 20) :
    (featureVector rng).getD i 0 = rng.uniform i := by
  simp [featureVector, List.getD_eq_getElem?_getD, List.getElem?_map, List.getElem?_range, h]

theorem handlerTrue_eq (rng : RNG) :
    handlerTrue rng =
      5 * (2 * Real.sin (Real.pi * rng.uniform 0 * rng.uniform 1)
        + (2 * rng.uniform 2 - 1) ^ 2 + 2 * rng.uniform 3 + rng.uniform 4)
      + 0.1 * rng.normal 0 := by
  simp only [handlerTrue]
  rw [featureVector_getD rng 0 (by norm_num), featureVector_getD rng 1 (by norm_num),
    featureVector_getD rng 2 (by norm_num), featureVector_getD rng 3 (by norm_num),
    featureVector_getD rng 4 (by norm_num)]

theorem hello_model_ok (fs : FileSystem) (render : List ℝ → String) (rng : RNG)
    (m : Model) (hfs : fs modelPath = some m) (hm : m.nFeatures = 20) :
    hello_model fs render rng =
      (Except.ok ⟨200, bodyTemplate (render [handlerPred m rng])
          (render [(handlerTrue rng - handlerPred m rng) ^ 2])⟩,
       [Effect.fileRead modelPath, Effect.predictCall 1]) := by
  unfold hello_model
  rw [hfs]
  have hpred : m.predict [featureVector rng] = Except.ok [m.raw (featureVector rng)] := by
    unfold Model.predict
    rw [if_pos]
    · simp
    · simp [featureVector_length, hm]
  simp only [loadModel, hpred, handlerPred, List.map]

theorem fake_deploy_ok (fs : FileSystem) (rng : RNG)
    (m : Model) (hfs : fs modelPath = some m) (hm : m.nFeatures = 20) :
    fake_deploy fs rng =
      (⟨0, [(deployMatrix rng).map m.raw]⟩,
       [Effect.fileRead modelPath, Effect.predictCall 10]) := by
  unfold fake_deploy
  rw [hfs]
  have hpred : m.predict (deployMatrix rng) = Except.ok ((deployMatrix rng).map m.raw) := by
    unfold Model.predict
    rw [if_pos]
    simp [deployMatrix, hm]
  simp only [loadModel, hpred]

theorem hello_model_fs_congr (fs fs' : FileSystem) (render : List ℝ → String) (rng : RNG)
    (h : fs modelPath = fs' modelPath) :
    hello_model fs render rng = hello_model fs' render rng := by
  unfold hello_model
  rw [h]

/-! ### Claim theorems -/

/-- Claim C1: for every 20-dimensional feature vector and noise draw (every
generator), the synthetic reference value computed by the web handler equals
`5 * (2*sin(pi*x0*x1) + (2*x2-1)^2 + 2*x3 + x4) + 0.1*n` where `n` is the
standard-normal draw. -/
theorem claim_C1_reference_value (rng : RNG) :
    handlerTrue rng =
      5 * (2 * Real.sin (Real.pi * rng.uniform 0 * rng.uniform 1)
        + (2 * rng.uniform 2 - 1) ^ 2 + 2 * rng.uniform 3 + rng.uniform 4)
      + 0.1 * rng.normal 0 :=
  handlerTrue_eq rng

/-- Claim C2: for every valid model file (a readable file whose model expects
20 features), the web handler returns HTTP 200 with a body matching the
literal template `Prediction: <_>\n Error: <_>\n n.b. model suboptimal to
save time`, the placeholders being the rendered prediction and squared
error arrays. -/
theorem claim_C2_http_ok (fs : FileSystem) (render : List ℝ → String) (rng : RNG)
    (m : Model) (hfs : fs modelPath = some m) (hm : m.nFeatures = 20) :
    (hello_model fs render rng).1 =
      Except.ok ⟨200, bodyTemplate (render [handlerPred m rng])
        (render [(handlerTrue rng - handlerPred m rng) ^ 2])⟩ := by
  rw [hello_model_ok fs render rng m hfs hm]

theorem claim_C2_witness :
    (hello_model fsA renderA rngA).1 =
      Except.ok ⟨200, bodyTemplate (renderA [handlerPred mA rngA])
        (renderA [(handlerTrue rngA - handlerPred mA rngA) ^ 2])⟩ :=
  claim_C2_http_ok fsA renderA rngA mA rfl rfl

/-- Claim C3: the reference-value formula with zero noise is deterministic in
the first five components, and when all of them equal one half the pre-noise
reference value equals `5 * (2*sin(pi/4) + 0 + 1 + 1/2)`, which is within
0.001 of 14.571. -/
theorem claim_C3_deterministic_value :
    (∀ rng rng' : RNG, (∀ i, i < 5 → rng.uniform i = rng'.uniform i) →
      rng.normal 0 = rng'.normal 0 → handlerTrue rng = handlerTrue rng') ∧
    (∀ rng : RNG, (∀ i, i < 5 → rng.uniform i = 1/2) → rng.normal 0 = 0 →
      handlerTrue rng = 5 * (2 * Real.sin (Real.pi * (1/4)) + 0 + 1 + 1/2) ∧
      |handlerTrue rng - 14.571| < 0.001) := by
  constructor
  · intro rng rng' h hn
    rw [handlerTrue_eq, handlerTrue_eq, h 0 (by norm_num), h 1 (by norm_num),
      h 2 (by norm_num), h 3 (by norm_num), h 4 (by norm_num), hn]
  · intro rng h hn
    have hrw : handlerTrue rng = 5 * (2 * Real.sin (Real.pi * (1/4)) + 0 + 1 + 1/2) := by
      rw [handlerTrue_eq, h 0 (by norm_num), h 1 (by norm_num), h 2 (by norm_num),
        h 3 (by norm_num), h 4 (by norm_num), hn]
      have harg : Real.pi * (1/2 : ℝ) * (1/2) = Real.pi * (1/4) := by ring
      rw [harg]
      norm_num
    refine ⟨hrw, ?_⟩
    rw [hrw]
    have hs : Real.sin (Real.pi * (1/4 : ℝ)) = Real.sqrt 2 / 2 := by
      rw [show Real.pi * (1/4 : ℝ) = Real.pi / 4 by ring]
      exact Real.sin_pi_div_four
    rw [hs]
    have h2 : Real.sqrt 2 ^ 2 = 2 := Real.sq_sqrt (by norm_num)
    have hnn : (0:ℝ) ≤ Real.sqrt 2 := Real.sqrt_nonneg 2
    have hlb : (1.4142 : ℝ) < Real.sqrt 2 := by nlinarith
    have hub : Real.sqrt 2 < 1.4143 := by nlinarith
    rw [abs_lt]
    constructor <;> nlinarith

theorem claim_C3_witness :
    handlerTrue rngHalf = 5 * (2 * Real.sin (Real.pi * (1/4)) + 0 + 1 + 1/2) ∧
    |handlerTrue rngHalf - 14.571| < 0.001 :=
  claim_C3_deterministic_value.2 rngHalf (fun _ _ => rfl) rfl

/-- Claim C4: with a valid model file, the batch script performs exactly one
prediction pass (a single `predictCall` effect, no looping or retry), exits
successfully, and prints exactly one array holding 10 prediction values. -/
theorem claim_C4_batch_ten (fs : FileSystem) (rng : RNG) (m : Model)
    (hfs : fs modelPath = some m) (hm : m.nFeatures = 20) :
    (fake_deploy fs rng).1.exitCode = 0 ∧
    (fake_deploy fs rng).1.printed = [(deployMatrix rng).map m.raw] ∧
    ((deployMatrix rng).map m.raw).length = 10 ∧
    ((fake_deploy fs rng).2.countP Effect.isPredict) = 1 := by
  rw [fake_deploy_ok fs rng m hfs hm]
  refine ⟨rfl, rfl, ?_, ?_⟩
  · simp [deployMatrix]
  · simp [List.countP_cons, List.countP_nil, Effect.isPredict]

theorem claim_C4_witness :
    (fake_deploy fsA rngA).1.exitCode = 0 ∧
    (fake_deploy fsA rngA).1.printed = [(deployMatrix rngA).map mA.raw] ∧
    ((deployMatrix rngA).map mA.raw).length = 10 ∧
    ((fake_deploy fsA rngA).2.countP Effect.isPredict) = 1 :=
  claim_C4_batch_ten fsA rngA mA rfl rfl

/-- Claim C5: the web handler draws one 20-component feature vector per
request and the batch script draws 10 of them; for a well-formed generator
every component lies in [0,1); and passing a vector of any length other than
the model's expected 20 features to the prediction call fails with a
shape-mismatch error. -/
theorem claim_C5_feature_dimensions (rng : RNG) :
    (featureVector rng).length = 20 ∧
    (RNG.Wf rng → ∀ v ∈ featureVector rng, 0 ≤ v ∧ v < 1) ∧
    ((deployMatrix rng).length = 10 ∧ ∀ row ∈ deployMatrix rng, row.length = 20) ∧
    (RNG.Wf rng → ∀ row ∈ deployMatrix rng, ∀ v ∈ row, 0 ≤ v ∧ v < 1) ∧
    (∀ m : Model, m.nFeatures = 20 → ∀ v : List ℝ, v.length ≠ 20 →
      m.predict [v] = Except.error PredictError.shapeMismatch) := by
  refine ⟨featureVector_length rng, ?_, ⟨?_, ?_⟩, ?_, ?_⟩
  · intro hwf v hv
    simp only [featureVector, List.mem_map, List.mem_range] at hv
    obtain ⟨i, _, rfl⟩ := hv
    exact hwf i
  · simp [deployMatrix]
  · intro row hrow
    simp only [deployMatrix, List.mem_map, List.mem_range] at hrow
    obtain ⟨i, _, rfl⟩ := hrow
    simp
  · intro hwf row hrow v hv
    simp only [deployMatrix, List.mem_map, List.mem_range] at hrow
    obtain ⟨i, _, rfl⟩ := hrow
    simp only [List.mem_map, List.mem_range] at hv
    obtain ⟨j, _, rfl⟩ := hv
    exact hwf _
  · intro m hm v hv
    simp [Model.predict, hm, hv]

theorem claim_C5_witness :
    (featureVector rngA).length = 20 ∧
    mA.predict [[]] = Except.error PredictError.shapeMismatch :=
  ⟨(claim_C5_feature_dimensions rngA).1,
   (claim_C5_feature_dimensions rngA).2.2.2.2 mA rfl [] (by decide)⟩

/-- Claim C6: when the model file is missing or unreadable, the web handler
fails with an unhandled load error (no success response, hence no partial
body) and the batch script exits non-zero having printed nothing. -/
theorem claim_C6_missing_model (fs : FileSystem) (render : List ℝ → String) (rng : RNG)
    (h : fs modelPath = none) :
    (hello_model fs render rng).1 = Except.error AppError.loadFailed ∧
    (hello_model fs render rng).2 = [Effect.fileRead modelPath] ∧
    (fake_deploy fs rng).1.exitCode = 1 ∧
    (fake_deploy fs rng).1.printed = [] := by
  unfold hello_model fake_deploy
  rw [h]
  exact ⟨rfl, rfl, rfl, rfl⟩

theorem claim_C6_witness :
    (hello_model fsNone renderA rngA).1 = Except.error AppError.loadFailed ∧
    (hello_model fsNone renderA rngA).2 = [Effect.fileRead modelPath] ∧
    (fake_deploy fsNone rngA).1.exitCode = 1 ∧
    (fake_deploy fsNone rngA).1.printed = [] :=
  claim_C6_missing_model fsNone renderA rngA rfl

/-- Claim C7: the web handler shares no state across invocations: in any two
served request sequences, responses at any positions agree whenever the model
file contents and that request's own random draws agree, independently of all
other requests. -/
theorem claim_C7_no_shared_state (fs fs' : FileSystem) (render : List ℝ → String)
    (rngs rngs' : List RNG) (i j : ℕ)
    (hfs : fs modelPath = fs' modelPath) (hr : rngs[i]? = rngs'[j]?) :
    (serve fs render rngs)[i]? = (serve fs' render rngs')[j]? := by
  have hfun : hello_model fs render = hello_model fs' render := by
    funext rng
    exact hello_model_fs_congr fs fs' render rng hfs
  simp only [serve, List.getElem?_map, hr, hfun]

theorem claim_C7_witness :
    (serve fsA renderA [rngA])[0]? = (serve fsA renderA [rngHalf, rngA])[1]? :=
  claim_C7_no_shared_state fsA fsA renderA [rngA] [rngHalf, rngA] 0 1 rfl rfl

/-- Claim C8: the synthetic reference value depends only on the first five
feature components and the noise draw, while the remaining components can
still change the model's prediction. -/
theorem claim_C8_reference_first_five :
    (∀ rng rng' : RNG, (∀ i, i < 5 → rng.uniform i = rng'.uniform i) →
      rng.normal 0 = rng'.normal 0 → handlerTrue rng = handlerTrue rng') ∧
    (∃ (m : Model) (rng rng' : RNG),
      (∀ i, i < 5 → rng.uniform i = rng'.uniform i) ∧
      rng.normal 0 = rng'.normal 0 ∧
      handlerPred m rng ≠ handlerPred m rng') := by
  constructor
  · intro rng rng' h hn
    rw [handlerTrue_eq, handlerTrue_eq, h 0 (by norm_num), h 1 (by norm_num),
      h 2 (by norm_num), h 3 (by norm_num), h 4 (by norm_num), hn]
  · refine ⟨mIdx5, rngA, rngB, ?_, rfl, ?_⟩
    · intro i hi
      simp [rngA, rngB, hi]
    · have h1 : handlerPred mIdx5 rngA = 0 := by
        show (featureVector rngA).getD 5 0 = 0
        rw [featureVector_getD rngA 5 (by norm_num)]
        simp [rngA]
      have h2 : handlerPred mIdx5 rngB = 1 := by
        show (featureVector rngB).getD 5 0 = 1
        rw [featureVector_getD rngB 5 (by norm_num)]
        simp [rngB]
      rw [h1, h2]
      norm_num

theorem claim_C8_witness : handlerTrue rngA = handlerTrue rngB :=
  claim_C8_reference_first_five.1 rngA rngB (fun i hi => by simp [rngA, rngB, hi]) rfl

/-- Claim C9: a web handler run has no side effect beyond its response: its
effect trace contains no filesystem write and no logging, metrics or
persistence effect, so the model file and all other external state are
unchanged. -/
theorem claim_C9_no_side_effects (fs : FileSystem) (render : List ℝ → String) (rng : RNG) :
    ((hello_model fs render rng).2.all fun e => !e.isWrite && !e.isLog) = true := by
  unfold hello_model
  cases hl : loadModel (fs modelPath) with
  | error e => simp [Effect.isWrite, Effect.isLog]
  | ok m =>
    cases hp : m.predict [featureVector rng] with
    | error e => simp [hp, Effect.isWrite, Effect.isLog]
    | ok preds => simp [hp, Effect.isWrite, Effect.isLog]

/-- Claim C10: on every successful web handler invocation the rendered Error
value is the square of the difference between the synthetic reference value
and the model prediction, and that value is nonnegative. -/
theorem claim_C10_squared_error (fs : FileSystem) (render : List ℝ → String) (rng : RNG)
    (m : Model) (hfs : fs modelPath = some m) (hm : m.nFeatures = 20) :
    (hello_model fs render rng).1 =
      Except.ok ⟨200, bodyTemplate (render [handlerPred m rng])
        (render [(handlerTrue rng - handlerPred m rng) ^ 2])⟩ ∧
    0 ≤ (handlerTrue rng - handlerPred m rng) ^ 2 := by
  refine ⟨?_, sq_nonneg _⟩
  rw [hello_model_ok fs render rng m hfs hm]

theorem claim_C10_witness :
    (hello_model fsA renderA rngA).1 =
      Except.ok ⟨200, bodyTemplate (renderA [handlerPred mA rngA])
        (renderA [(handlerTrue rngA - handlerPred mA rngA) ^ 2])⟩ ∧
    0 ≤ (handlerTrue rngA - handlerPred mA rngA) ^ 2 :=
  claim_C10_squared_error fsA renderA rngA mA rfl rfl

end BigBoost
